import Mathlib

/-!
Verification development for the horoscope collector
(`src/scripts/horoscope.ts` of the json-gather repository).

The script's data model is dynamically typed JSON-like JavaScript values.
We embed those values as the mutual inductive `JSValue` (with dedicated
list types for array elements and object fields so that all recursions
stay structural and computable), together with the JavaScript primitives
the source relies on: truthiness, nullish coalescing (`??`), optional
chaining (`?.`), strict equality against literals (`===`), `typeof`,
the `in` operator, `String(...)` coercion, and `JSON.stringify`.

On top of that we embed, directly from the source:
  * `normalizeApiResponse` (horoscope.ts lines 93-122), in two forms:
    the total function `normalizeApiResponse`, and
    `normalizeApiResponseJS`, which models JavaScript property access
    that throws a `TypeError` on `null`/`undefined` receivers, so that
    the "never throws" contract can be stated and proved;
  * `convertObjectToTraditional` (lines 59-90) against an optional
    transliteration function;
  * the per-sign fetch/normalize/date-fallback/retry orchestration
    `fetchConstellationData` (lines 125-241), with the network modelled
    as one environment per attempt carrying the response of the `today`
    request and the response the `nextday` request would return;
  * the batch driver's counting and exit-code logic (lines 244-344).
-/

namespace Horoscope

/-! ## JavaScript values -/

mutual

inductive JSValue where
  | null : JSValue
  | undefined : JSValue
  | bool : Bool → JSValue
  | num : Int → JSValue
  | str : String → JSValue
  | arr : JSList → JSValue
  | obj : JSFields → JSValue

inductive JSList where
  | nil : JSList
  | cons : JSValue → JSList → JSList

inductive JSFields where
  | nil : JSFields
  | cons : String → JSValue → JSFields → JSFields

end

/-- First binding of a key in an object's field list (later duplicates are
shadowed, matching JavaScript object construction order as stored). -/
def JSFields.lookup : JSFields → String → Option JSValue
  | .nil, _ => none
  | .cons k v t, key => if k == key then some v else t.lookup key

/-- JavaScript truthiness: `false`, `0`, `""`, `null`, `undefined` are falsy. -/
def truthy : JSValue → Bool
  | .null => false
  | .undefined => false
  | .bool b => b
  | .num n => n != 0
  | .str s => s != ""
  | .arr _ => true
  | .obj _ => true

/-- `null` or `undefined` (the values skipped by `??` and `?.`). -/
def isNullish : JSValue → Bool
  | .null => true
  | .undefined => true
  | _ => false

/-- Property read on a value that is known not to be nullish.  Non-objects
have no own properties, so the read yields `undefined`. -/
def getField : JSValue → String → JSValue
  | .obj fs, k =>
    match fs.lookup k with
    | some v => v
    | none => .undefined
  | _, _ => .undefined

/-- The JavaScript `in` operator restricted to own properties (the source
only applies it to plain response objects). -/
def hasField : JSValue → String → Bool
  | .obj fs, k => (fs.lookup k).isSome
  | _, _ => false

/-- `a ?? b`: nullish coalescing. -/
def jsOrElse (a b : JSValue) : JSValue :=
  if isNullish a then b else a

/-- `a?.k`: optional chaining, `undefined` when the receiver is nullish. -/
def optChain (a : JSValue) (k : String) : JSValue :=
  if isNullish a then .undefined else getField a k

/-- Strict equality `===` as used in the source: every comparison there has
a primitive literal (or a freshly produced string) on one side, so
reference equality of objects never arises. -/
def strictEqPrim : JSValue → JSValue → Bool
  | .str a, .str b => a == b
  | .num a, .num b => a == b
  | .bool a, .bool b => a == b
  | .null, .null => true
  | .undefined, .undefined => true
  | _, _ => false

/-- `typeof v === 'object'` (true for objects, arrays and `null`). -/
def typeofIsObject : JSValue → Bool
  | .obj _ => true
  | .arr _ => true
  | .null => true
  | _ => false

mutual

/-- `String(v)` coercion (arrays join their elements with `,` where
`null`/`undefined` elements render as the empty string). -/
def jsToString : JSValue → String
  | .null => "null"
  | .undefined => "undefined"
  | .bool b => if b then "true" else "false"
  | .num n => toString n
  | .str s => s
  | .arr xs => String.intercalate "," (jsToStringList xs)
  | .obj _ => "[object Object]"

def jsToStringList : JSList → List String
  | .nil => []
  | .cons x xs =>
    (match x with
     | .null => ""
     | .undefined => ""
     | v => jsToString v) :: jsToStringList xs

end

/-- Quote a string as a JSON literal (escaping backslash and quote). -/
def jsonQuote (s : String) : String :=
  "\"" ++ ((s.replace "\\" "\\\\").replace "\"" "\\\"") ++ "\""

mutual

/-- `JSON.stringify(v)`: `none` when the value is `undefined` (which
`JSON.stringify` maps to no output at all). -/
def jsonStringify : JSValue → Option String
  | .undefined => none
  | .null => some "null"
  | .bool b => some (if b then "true" else "false")
  | .num n => some (toString n)
  | .str s => some (jsonQuote s)
  | .arr xs => some ("[" ++ String.intercalate "," (jsonStringifyArr xs) ++ "]")
  | .obj fs => some ("\x7b" ++ String.intercalate "," (jsonStringifyObj fs) ++ "\x7d")

def jsonStringifyArr : JSList → List String
  | .nil => []
  | .cons x xs => ((jsonStringify x).getD "null") :: jsonStringifyArr xs

def jsonStringifyObj : JSFields → List String
  | .nil => []
  | .cons k v fs =>
    (match jsonStringify v with
     | some s => [jsonQuote k ++ ":" ++ s]
     | none => []) ++ jsonStringifyObj fs

end

/-- `JSON.stringify(v)` as rendered inside a template literal
(`undefined` renders as the text "undefined"). -/
def jsonStringifyT (v : JSValue) : String :=
  (jsonStringify v).getD "undefined"

/-! ## The response normalizer (horoscope.ts lines 93-122) -/

/-- The requested day (`prefer` parameter of `normalizeApiResponse`). -/
inductive Prefer where
  | today : Prefer
  | nextday : Prefer
deriving DecidableEq

/-- The normalizer's return record.  `msg` and the selected `payload` are
dynamic values in the source (the type annotations there are aspirational),
`date` is `chosen?.date ?? null`. -/
structure NormalizedResponse where
  ok : Bool
  code : String
  msg : JSValue
  payload : JSValue
  date : JSValue

/-- Line 98: `raw && (raw.code === '200' || raw.code === 200) && (raw.msg || raw.message)`. -/
def statusOK (raw : JSValue) : Bool :=
  truthy raw &&
    (strictEqPrim (getField raw "code") (.str "200") ||
      strictEqPrim (getField raw "code") (.num 200)) &&
    (truthy (getField raw "msg") || truthy (getField raw "message"))

/-- Line 101: `raw.success === true && raw.data && typeof raw.data === 'object'
&& (raw.data.day || raw.data.tomorrow)`. -/
def isNewShape (raw : JSValue) : Bool :=
  strictEqPrim (getField raw "success") (.bool true) &&
    truthy (getField raw "data") && typeofIsObject (getField raw "data") &&
    (truthy (getField (getField raw "data") "day") ||
      truthy (getField (getField raw "data") "tomorrow"))

/-- Line 109: `raw.data && typeof raw.data === 'object' && !('day' in raw.data)
&& !('tomorrow' in raw.data)`. -/
def isLegacyShape (raw : JSValue) : Bool :=
  truthy (getField raw "data") && typeofIsObject (getField raw "data") &&
    !(hasField (getField raw "data") "day") &&
    !(hasField (getField raw "data") "tomorrow")

/-- Lines 115-121: the rejection record, with code and message extracted
defensively through optional chaining and `String(...)`. -/
def failNormalize (raw : JSValue) : NormalizedResponse :=
  { ok := false
    code := jsToString (jsOrElse (optChain raw "code") (.str ""))
    msg := .str (jsToString (jsOrElse (optChain raw "msg")
      (jsOrElse (optChain raw "message") (.str ""))))
    payload := .null
    date := .null }

/-- Lines 93-122, as a total function over embedded values. -/
def normalizeApiResponse (raw : JSValue) (prefer : Prefer) : NormalizedResponse :=
  if statusOK raw then
    let msg := jsOrElse (getField raw "msg") (getField raw "message")
    if isNewShape raw then
      let data := getField raw "data"
      let block :=
        match prefer with
        | .nextday => getField data "tomorrow"
        | .today => getField data "day"
      let chosen :=
        jsOrElse block (jsOrElse (getField data "day")
          (jsOrElse (getField data "tomorrow") .null))
      { ok := true
        code := jsToString (getField raw "code")
        msg := msg
        payload := chosen
        date := jsOrElse (optChain chosen "date") .null }
    else if isLegacyShape raw then
      let data := getField raw "data"
      { ok := true
        code := jsToString (getField raw "code")
        msg := msg
        payload := data
        date := jsOrElse (optChain data "date") .null }
    else failNormalize raw
  else failNormalize raw

/-! ## Throwing property-access semantics

JavaScript property access throws a `TypeError` when the receiver is
`null` or `undefined`.  `normalizeApiResponseJS` repeats the source's
dereference structure with that effect made explicit, so that "the
function never throws" is a theorem rather than an artifact of the
embedding. -/

/-- Property access with the JavaScript throwing behaviour. -/
def getProp : JSValue → String → Except String JSValue
  | .null, k => .error ("TypeError: Cannot read properties of null (reading " ++ k ++ ")")
  | .undefined, k => .error ("TypeError: Cannot read properties of undefined (reading " ++ k ++ ")")
  | v, k => .ok (getField v k)

/-- `normalizeApiResponse` with throwing property access: each dereference
in lines 98-121 happens under the guard the source establishes for it
(`raw` truthy, `raw.data` truthy, optional chaining elsewhere). -/
def normalizeApiResponseJS (raw : JSValue) (prefer : Prefer) : Except String NormalizedResponse :=
  if truthy raw then
    match getProp raw "code" with
    | .error e => .error e
    | .ok code =>
      if strictEqPrim code (.str "200") || strictEqPrim code (.num 200) then
        match getProp raw "msg", getProp raw "message" with
        | .error e, _ => .error e
        | .ok _, .error e => .error e
        | .ok msgRaw, .ok messageRaw =>
          if truthy msgRaw || truthy messageRaw then
            let msg := if isNullish msgRaw then messageRaw else msgRaw
            match getProp raw "success", getProp raw "data" with
            | .error e, _ => .error e
            | .ok _, .error e => .error e
            | .ok success, .ok dataV =>
              if strictEqPrim success (.bool true) && truthy dataV && typeofIsObject dataV then
                match getProp dataV "day", getProp dataV "tomorrow" with
                | .error e, _ => .error e
                | .ok _, .error e => .error e
                | .ok day, .ok tm =>
                  if truthy day || truthy tm then
                    let block :=
                      match prefer with
                      | .nextday => tm
                      | .today => day
                    let chosen := jsOrElse block (jsOrElse day (jsOrElse tm .null))
                    .ok { ok := true
                          code := jsToString code
                          msg := msg
                          payload := chosen
                          date := jsOrElse (optChain chosen "date") .null }
                  else if truthy dataV && typeofIsObject dataV &&
                      !(hasField dataV "day") && !(hasField dataV "tomorrow") then
                    .ok { ok := true
                          code := jsToString code
                          msg := msg
                          payload := dataV
                          date := jsOrElse (optChain dataV "date") .null }
                  else .ok (failNormalize raw)
              else if truthy dataV && typeofIsObject dataV &&
                  !(hasField dataV "day") && !(hasField dataV "tomorrow") then
                .ok { ok := true
                      code := jsToString code
                      msg := msg
                      payload := dataV
                      date := jsOrElse (optChain dataV "date") .null }
              else .ok (failNormalize raw)
          else .ok (failNormalize raw)
      else .ok (failNormalize raw)
  else .ok (failNormalize raw)

/-! ## Transliteration (horoscope.ts lines 41-90)

The external opencc converter is a `string -> string` function that may be
unavailable (`chineseConverter` stays `null` when initialization fails). -/

mutual

/-- Lines 65-89 with a converter in hand: strings are converted, arrays
and objects (including their keys, line 82) recursively, everything else
passes through. -/
def convertValue (f : String → String) : JSValue → JSValue
  | .str s => .str (f s)
  | .arr xs => .arr (convertList f xs)
  | .obj fs => .obj (convertFields f fs)
  | v => v

def convertList (f : String → String) : JSList → JSList
  | .nil => .nil
  | .cons x xs => .cons (convertValue f x) (convertList f xs)

def convertFields (f : String → String) : JSFields → JSFields
  | .nil => .nil
  | .cons k v fs => .cons (f k) (convertValue f v) (convertFields f fs)

end

/-- Lines 59-90: `convertObjectToTraditional` returns its argument
unchanged when the converter is unavailable (lines 60-63). -/
def convertObjectToTraditional (conv : Option (String → String)) (v : JSValue) : JSValue :=
  match conv with
  | none => v
  | some f => convertValue f v

/-- Line 212 applies the converter directly to the chosen message; the
external converter transliterates a string (non-strings pass through in
this model, no reachable success path produces one there). -/
def convertString (f : String → String) : JSValue → JSValue
  | .str s => .str (f s)
  | v => v

/-! ## The per-sign orchestrator (horoscope.ts lines 125-241)

One attempt performs the `time=today` request, normalizes it, compares the
payload date against the reference date, and on mismatch first re-normalizes
the same response with preference `nextday`, then (only if that payload is
not usable) issues a `time=nextday` request.  The network is modelled as an
`AttemptEnv` per attempt: the transport outcome of the today request and the
transport outcome the nextday request would have.  The requests actually
issued are recorded with their `time` parameter. -/

/-- The `time` query parameter of an issued request. -/
inductive ReqTime where
  | today : ReqTime
  | nextday : ReqTime
deriving DecidableEq

/-- Transport outcomes for the (at most two) network calls of one attempt.
`Except.error` is a transport failure carrying the error message. -/
structure AttemptEnv where
  todayResp : Except String JSValue
  nextdayResp : Except String JSValue

/-- The code/msg/payload finally chosen by lines 156-198 before
transliteration. -/
structure Chosen where
  code : String
  msg : JSValue
  payload : JSValue

/-- Lines 129-217 up to (but not including) transliteration: the issued
requests and either the chosen data or the thrown/caught error message. -/
def attemptChoose (env : AttemptEnv) (todayDate : String) : List ReqTime × Except String Chosen :=
  match env.todayResp with
  | .error e => ([ReqTime.today], .error e)
  | .ok raw =>
    let normalizedToday := normalizeApiResponse raw .today
    if normalizedToday.ok && truthy normalizedToday.payload then
      let returnedDate := normalizedToday.date
      if truthy returnedDate && !(strictEqPrim returnedDate (.str todayDate)) then
        let normalizedNext := normalizeApiResponse raw .nextday
        if normalizedNext.ok && truthy normalizedNext.payload then
          ([ReqTime.today],
            .ok ⟨normalizedNext.code, normalizedNext.msg, normalizedNext.payload⟩)
        else
          match env.nextdayResp with
          | .error e => ([ReqTime.today, ReqTime.nextday], .error e)
          | .ok raw2 =>
            let normalizedNextByCall := normalizeApiResponse raw2 .nextday
            if normalizedNextByCall.ok && truthy normalizedNextByCall.payload then
              ([ReqTime.today, ReqTime.nextday],
                .ok ⟨normalizedNextByCall.code, normalizedNextByCall.msg,
                  normalizedNextByCall.payload⟩)
            else
              ([ReqTime.today, ReqTime.nextday],
                .error ("API nextday請求失敗: " ++ jsonStringifyT raw2))
      else
        ([ReqTime.today],
          .ok ⟨normalizedToday.code, normalizedToday.msg, normalizedToday.payload⟩)
    else
      ([ReqTime.today], .error ("API 返回失敗狀態: " ++ jsonStringifyT raw))

/-- The per-sign result record (lines 207-214 on success, 232-238 on
exhausted retries).  `none` in an `Option` field models an absent key. -/
structure FetchResult where
  constellation : String
  chineseName : String
  success : Bool
  code : Option String
  msg : Option JSValue
  data : JSValue
  error : Option String

/-- One attempt's result: the success record of lines 207-214 (with
transliteration applied to the message and the payload) or the caught
error message. -/
def attemptResult (conv : Option (String → String)) (type ch : String)
    (env : AttemptEnv) (todayDate : String) : Except String FetchResult :=
  match (attemptChoose env todayDate).2 with
  | .error e => .error e
  | .ok c =>
    .ok { constellation := type
          chineseName := ch
          success := true
          code := some c.code
          msg := some (match conv with
            | none => c.msg
            | some f => convertString f c.msg)
          data := convertObjectToTraditional conv c.payload
          error := none }

/-- Line 34: `RETRY_ATTEMPTS = 3`. -/
def RETRY_ATTEMPTS : Nat := 3

/-- Lines 125-241: `fetchConstellationData`.  On failure with
`retryCount < RETRY_ATTEMPTS` the whole procedure repeats (after a fixed
delay, not modelled) with the next attempt's environment; once retries are
exhausted it returns the failure record of lines 232-238. -/
def fetchConstellationData (conv : Option (String → String)) (type ch : String)
    (envs : Nat → AttemptEnv) (todayDate : String) (retryCount : Nat) : FetchResult :=
  match attemptResult conv type ch (envs retryCount) todayDate with
  | .ok r => r
  | .error e =>
    if h : retryCount < RETRY_ATTEMPTS then
      fetchConstellationData conv type ch envs todayDate (retryCount + 1)
    else
      { constellation := type
        chineseName := ch
        success := false
        code := none
        msg := none
        data := .null
        error := some e }
termination_by RETRY_ATTEMPTS - retryCount
decreasing_by omega

/-- The number of attempts (today-fetch executions) the recursion of
lines 218-240 performs from a given counter value. -/
def fetchAttempts (conv : Option (String → String)) (type ch : String)
    (envs : Nat → AttemptEnv) (todayDate : String) (retryCount : Nat) : Nat :=
  match attemptResult conv type ch (envs retryCount) todayDate with
  | .ok _ => 1
  | .error _ =>
    if h : retryCount < RETRY_ATTEMPTS then
      1 + fetchAttempts conv type ch envs todayDate (retryCount + 1)
    else 1
termination_by RETRY_ATTEMPTS - retryCount
decreasing_by omega

/-! ## The batch driver (horoscope.ts lines 244-344) -/

/-- Lines 16-29: the twelve sign identifiers with their display names. -/
def CONSTELLATIONS : List (String × String) :=
  [("aries", "白羊座"), ("taurus", "金牛座"), ("gemini", "雙子座"),
   ("cancer", "巨蟹座"), ("leo", "獅子座"), ("virgo", "處女座"),
   ("libra", "天秤座"), ("scorpio", "天蠍座"), ("sagittarius", "射手座"),
   ("capricorn", "摩羯座"), ("aquarius", "水瓶座"), ("pisces", "雙魚座")]

/-- The aggregate output fields the claims are about (lines 286-296) and
the process exit code (0, or 1 via `process.exit(1)` at line 342). -/
structure BatchSummary where
  totalConstellations : Nat
  successCount : Nat
  failureCount : Nat
  convertedToTraditional : Bool
  errors : List String
  exitCode : Nat

/-- Lines 262-343: iterate the signs sequentially, count successes,
collect error strings, and exit non-zero only when nothing succeeded.
The per-sign fetch is abstracted as a function of the sign identifier
(our `fetchConstellationData` never throws, so the loop's catch of
line 274 is dead). -/
def runBatch (conv : Option (String → String)) (fetch : String → FetchResult) : BatchSummary :=
  let results := CONSTELLATIONS.map (fun p => fetch p.1)
  let errors := CONSTELLATIONS.filterMap (fun p =>
    let r := fetch p.1
    if r.success then none
    else some (p.2 ++ " (" ++ p.1 ++ "): " ++
      (match r.error with
       | some e => e
       | none => "undefined")))
  let successCount := (results.filter (fun r => r.success)).length
  let failureCount := CONSTELLATIONS.length - successCount
  { totalConstellations := CONSTELLATIONS.length
    successCount := successCount
    failureCount := failureCount
    convertedToTraditional := conv.isSome
    errors := errors
    exitCode := if successCount > 0 then 0 else 1 }

/-! ## Concrete inputs used by witnesses and counterexamples -/

/-- Scenario A input: `{code:"200", msg:"ok", data:{date:"2025-07-24", all:"72%"}}`. -/
def rawScenarioA : JSValue :=
  .obj (.cons "code" (.str "200") (.cons "msg" (.str "ok")
    (.cons "data" (.obj (.cons "date" (.str "2025-07-24")
      (.cons "all" (.str "72%") .nil))) .nil)))

/-- The data object of `rawScenarioA`. -/
def dataScenarioA : JSFields :=
  .cons "date" (.str "2025-07-24") (.cons "all" (.str "72%") .nil)

/-- Scenario B input:
`{success:true, code:200, message:"ok", data:{day:{date:"2025-07-24"}, tomorrow:{date:"2025-07-25"}}}`. -/
def rawScenarioB : JSValue :=
  .obj (.cons "success" (.bool true) (.cons "code" (.num 200)
    (.cons "message" (.str "ok")
      (.cons "data" (.obj
        (.cons "day" (.obj (.cons "date" (.str "2025-07-24") .nil))
          (.cons "tomorrow" (.obj (.cons "date" (.str "2025-07-25") .nil)) .nil))) .nil))))

/-- The data object of `rawScenarioB`. -/
def dataScenarioB : JSValue :=
  .obj (.cons "day" (.obj (.cons "date" (.str "2025-07-24") .nil))
    (.cons "tomorrow" (.obj (.cons "date" (.str "2025-07-25") .nil)) .nil))

/-- A legacy-shape today response dated 2025-07-24 (no `tomorrow` block). -/
def envStale : AttemptEnv :=
  { todayResp := .ok rawScenarioA, nextdayResp := .ok .null }

/-- New-shape response whose `tomorrow` block is the falsy value `0`. -/
def rawFalsyTomorrow : JSValue :=
  .obj (.cons "success" (.bool true) (.cons "code" (.num 200)
    (.cons "message" (.str "ok")
      (.cons "data" (.obj
        (.cons "day" (.obj (.cons "date" (.str "2025-07-24") .nil))
          (.cons "tomorrow" (.num 0) .nil))) .nil))))

/-- Environment delivering `rawFalsyTomorrow` today and garbage for the
nextday call. -/
def envFalsyTomorrow : AttemptEnv :=
  { todayResp := .ok rawFalsyTomorrow, nextdayResp := .ok .null }

/-- Environment where every transport call fails. -/
def envDown : AttemptEnv :=
  { todayResp := .error "timeout of 10000ms exceeded",
    nextdayResp := .error "timeout of 10000ms exceeded" }

/-- A matching-date environment (today response dated like the reference). -/
def envFresh : AttemptEnv :=
  { todayResp := .ok rawScenarioA, nextdayResp := .ok .null }

/-- A per-sign fetch outcome function with exactly two failing signs. -/
def fetchTwoFail : String → FetchResult := fun s =>
  if s == "aquarius" || s == "pisces" then
    { constellation := s, chineseName := s, success := false,
      code := none, msg := none, data := .null, error := some "boom" }
  else
    { constellation := s, chineseName := s, success := true,
      code := some "200", msg := some (.str "ok"), data := .obj .nil, error := none }

/-! ## Helper lemmas -/

theorem truthy_not_nullish {v : JSValue} (h : truthy v = true) : isNullish v = false := by
  cases v <;> simp_all [truthy, isNullish]

theorem not_null_of_not_nullish {v : JSValue} (h : isNullish v = false) : v ≠ JSValue.null := by
  cases v <;> simp_all [isNullish]

theorem truthy_of_getField_ne_undef {raw : JSValue} {k : String} {v : JSValue}
    (h : getField raw k = v) (hne : v ≠ JSValue.undefined) : truthy raw = true := by
  cases raw <;> simp_all [getField, truthy]

theorem jsOrElse_of_truthy {a : JSValue} (b : JSValue) (h : truthy a = true) :
    jsOrElse a b = a := by
  simp [jsOrElse, truthy_not_nullish h]

theorem jsOrElse_of_nullish {a : JSValue} (b : JSValue) (h : isNullish a = true) :
    jsOrElse a b = b := by
  simp [jsOrElse, h]

theorem getField_obj_none {fs : JSFields} {k : String} (h : fs.lookup k = none) :
    getField (.obj fs) k = .undefined := by
  simp [getField, h]

theorem hasField_obj_none {fs : JSFields} {k : String} (h : fs.lookup k = none) :
    hasField (.obj fs) k = false := by
  simp [hasField, h]

theorem statusOK_of (raw : JSValue)
    (hc : getField raw "code" = .str "200" ∨ getField raw "code" = .num 200)
    (hm : (truthy (getField raw "msg") || truthy (getField raw "message")) = true) :
    statusOK raw = true := by
  have htr : truthy raw = true := by
    rcases hc with h | h
    · exact truthy_of_getField_ne_undef h (by simp)
    · exact truthy_of_getField_ne_undef h (by simp)
  rcases hc with h | h <;> simp [statusOK, htr, h, strictEqPrim, hm]

/-- The acceptance decision of `normalizeApiResponse` never depends on the
preference; only the selected block does. -/
theorem normalize_ok_pref_independent (raw : JSValue) :
    (normalizeApiResponse raw .today).ok = (normalizeApiResponse raw .nextday).ok := by
  cases h1 : statusOK raw <;> cases h2 : isNewShape raw <;>
    cases h3 : isLegacyShape raw <;>
    simp [normalizeApiResponse, h1, h2, h3, failNormalize]

/-- The fallback chain `block ?? day ?? tomorrow ?? null` is non-nullish
as soon as one of the two blocks is truthy. -/
theorem chosen_not_nullish (block day tm : JSValue)
    (h : truthy day = true ∨ truthy tm = true) :
    isNullish (jsOrElse block (jsOrElse day (jsOrElse tm .null))) = false := by
  cases hb : isNullish block
  · simp [jsOrElse, hb]
  · cases hd : isNullish day
    · simp [jsOrElse, hb, hd]
    · cases ht : isNullish tm
      · simp [jsOrElse, hb, hd, ht]
      · rcases h with h | h
        · simp [truthy_not_nullish h] at hd
        · simp [truthy_not_nullish h] at ht

/-- Whenever the normalizer accepts, the selected payload is not nullish. -/
theorem normalize_ok_payload_not_nullish (raw : JSValue) (prefer : Prefer)
    (h : (normalizeApiResponse raw prefer).ok = true) :
    isNullish (normalizeApiResponse raw prefer).payload = false := by
  cases h1 : statusOK raw
  · simp [normalizeApiResponse, h1, failNormalize] at h
  · cases h2 : isNewShape raw
    · cases h3 : isLegacyShape raw
      · simp [normalizeApiResponse, h1, h2, h3, failNormalize] at h
      · have h3' := h3
        simp only [isLegacyShape, Bool.and_eq_true] at h3'
        obtain ⟨⟨⟨hdata, -⟩, -⟩, -⟩ := h3'
        simp [normalizeApiResponse, h1, h2, h3, truthy_not_nullish hdata]
    · have h2' := h2
      simp only [isNewShape, Bool.and_eq_true] at h2'
      have hdt := Bool.or_eq_true_iff.mp h2'.2
      cases prefer <;> simp [normalizeApiResponse, h1, h2] <;>
        exact chosen_not_nullish _ _ _ hdt

/-! ## Claims about the normalizer -/

/-- C2: for every new-shape input (success code, non-empty message, and a
data object carrying nested `day` and `tomorrow` blocks), preference
`today` selects the `day` block and `nextday` the `tomorrow` block; if the
preferred block is absent (nullish) but the other is present, the other is
returned, and the returned date is the chosen block's `date` field. -/
theorem C2_new_shape_selection (raw dataV : JSValue)
    (hc : getField raw "code" = .str "200" ∨ getField raw "code" = .num 200)
    (hm : (truthy (getField raw "msg") || truthy (getField raw "message")) = true)
    (hs : getField raw "success" = .bool true)
    (hd : getField raw "data" = dataV)
    (hobj : typeofIsObject dataV = true)
    (hdt : truthy dataV = true) :
    (truthy (getField dataV "day") = true →
      normalizeApiResponse raw .today =
        { ok := true, code := jsToString (getField raw "code"),
          msg := jsOrElse (getField raw "msg") (getField raw "message"),
          payload := getField dataV "day",
          date := jsOrElse (optChain (getField dataV "day") "date") .null }) ∧
    (truthy (getField dataV "tomorrow") = true →
      normalizeApiResponse raw .nextday =
        { ok := true, code := jsToString (getField raw "code"),
          msg := jsOrElse (getField raw "msg") (getField raw "message"),
          payload := getField dataV "tomorrow",
          date := jsOrElse (optChain (getField dataV "tomorrow") "date") .null }) ∧
    (isNullish (getField dataV "day") = true →
      truthy (getField dataV "tomorrow") = true →
      (normalizeApiResponse raw .today).payload = getField dataV "tomorrow" ∧
      (normalizeApiResponse raw .today).date =
        jsOrElse (optChain (getField dataV "tomorrow") "date") .null) ∧
    (isNullish (getField dataV "tomorrow") = true →
      truthy (getField dataV "day") = true →
      (normalizeApiResponse raw .nextday).payload = getField dataV "day" ∧
      (normalizeApiResponse raw .nextday).date =
        jsOrElse (optChain (getField dataV "day") "date") .null) := by
  have hSO := statusOK_of raw hc hm
  refine ⟨?_, ?_, ?_, ?_⟩
  · intro hday
    have hNS : isNewShape raw = true := by
      simp [isNewShape, hs, hd, hobj, hdt, hday, strictEqPrim]
    simp [normalizeApiResponse, hSO, hNS, hd, jsOrElse_of_truthy _ hday]
  · intro htm
    have hNS : isNewShape raw = true := by
      simp [isNewShape, hs, hd, hobj, hdt, htm, strictEqPrim]
    simp [normalizeApiResponse, hSO, hNS, hd, jsOrElse_of_truthy _ htm]
  · intro hday htm
    have hNS : isNewShape raw = true := by
      simp [isNewShape, hs, hd, hobj, hdt, htm, strictEqPrim]
    simp [normalizeApiResponse, hSO, hNS, hd, jsOrElse_of_nullish _ hday,
      jsOrElse_of_truthy _ htm]
  · intro htm hday
    have hNS : isNewShape raw = true := by
      simp [isNewShape, hs, hd, hobj, hdt, hday, strictEqPrim]
    simp [normalizeApiResponse, hSO, hNS, hd, jsOrElse_of_nullish _ htm,
      jsOrElse_of_truthy _ hday]

/-- C2 witness: Scenario B — the both-blocks input with preference
`nextday` yields payload date `2025-07-25`. -/
theorem C2_witness :
    truthy (getField dataScenarioB "tomorrow") = true ∧
    (normalizeApiResponse rawScenarioB .nextday).payload =
      .obj (.cons "date" (.str "2025-07-25") .nil) ∧
    (normalizeApiResponse rawScenarioB .nextday).date = .str "2025-07-25" := by
  refine ⟨rfl, ?_, ?_⟩ <;>
    · rw [(C2_new_shape_selection rawScenarioB dataScenarioB (Or.inr rfl) rfl rfl rfl
        rfl rfl).2.1 rfl]
      rfl

/-- C3: for every legacy-shape input (success code, non-empty message, and
a data object with neither a `day` nor a `tomorrow` key), the normalizer
accepts with the whole data object as payload and its `date` field (null
when absent) as date, for either preference. -/
theorem C3_legacy_passthrough (raw : JSValue) (fs : JSFields) (prefer : Prefer)
    (hc : getField raw "code" = .str "200" ∨ getField raw "code" = .num 200)
    (hm : (truthy (getField raw "msg") || truthy (getField raw "message")) = true)
    (hd : getField raw "data" = .obj fs)
    (hday : fs.lookup "day" = none)
    (htm : fs.lookup "tomorrow" = none) :
    normalizeApiResponse raw prefer =
      { ok := true, code := jsToString (getField raw "code"),
        msg := jsOrElse (getField raw "msg") (getField raw "message"),
        payload := .obj fs,
        date := jsOrElse (optChain (.obj fs) "date") .null } := by
  have hSO := statusOK_of raw hc hm
  have hNS : isNewShape raw = false := by
    simp [isNewShape, hd, getField_obj_none hday, getField_obj_none htm, truthy]
  have hLS : isLegacyShape raw = true := by
    simp [isLegacyShape, hd, hasField_obj_none hday, hasField_obj_none htm, truthy,
      typeofIsObject]
  simp [normalizeApiResponse, hSO, hNS, hLS, hd]

/-- C3 witness: Scenario A evaluates to exactly the record the claim
states. -/
theorem C3_witness :
    normalizeApiResponse rawScenarioA Prefer.today =
      { ok := true, code := "200", msg := .str "ok",
        payload := .obj dataScenarioA, date := .str "2025-07-24" } := by
  rw [C3_legacy_passthrough rawScenarioA dataScenarioA Prefer.today (Or.inl rfl)
    rfl rfl rfl rfl]
  rfl

/-- C4: every input without a success status code or a non-empty message,
and every accepted-status input whose data matches neither shape, is
rejected with null payload and date, and code/message extracted
defensively (stringified, empty string when absent). -/
theorem C4_reject_defensive (raw : JSValue) (prefer : Prefer)
    (h : statusOK raw = false ∨ (isNewShape raw = false ∧ isLegacyShape raw = false)) :
    normalizeApiResponse raw prefer =
      { ok := false,
        code := jsToString (jsOrElse (optChain raw "code") (.str "")),
        msg := .str (jsToString (jsOrElse (optChain raw "msg")
          (jsOrElse (optChain raw "message") (.str "")))),
        payload := .null, date := .null } := by
  rcases h with h | ⟨h2, h3⟩
  · simp [normalizeApiResponse, h, failNormalize]
  · cases h1 : statusOK raw <;>
      simp [normalizeApiResponse, h1, h2, h3, failNormalize]

/-- C4 witness: the null input is rejected with empty code and message. -/
theorem C4_witness :
    statusOK JSValue.null = false ∧
    normalizeApiResponse JSValue.null Prefer.today =
      { ok := false, code := "", msg := .str "", payload := .null, date := .null } := by
  refine ⟨rfl, ?_⟩
  rw [C4_reject_defensive JSValue.null Prefer.today (Or.inl rfl)]
  rfl

theorem getProp_of_truthy {v : JSValue} (h : truthy v = true) (k : String) :
    getProp v k = .ok (getField v k) := by
  cases v <;> simp_all [truthy, getProp]

/-- C5: `normalizeApiResponse` is pure and total — under the JavaScript
throwing semantics of property access it never raises, and it computes
exactly the value of the total embedding, for every input value and either
preference. -/
theorem C5_normalize_never_throws (raw : JSValue) (prefer : Prefer) :
    normalizeApiResponseJS raw prefer = Except.ok (normalizeApiResponse raw prefer) := by
  cases htr : truthy raw
  · have hSO : statusOK raw = false := by simp [statusOK, htr]
    simp [normalizeApiResponseJS, normalizeApiResponse, htr, hSO]
  · have hgp := getProp_of_truthy htr
    cases hcode : (strictEqPrim (getField raw "code") (.str "200") ||
        strictEqPrim (getField raw "code") (.num 200))
    · have hSO : statusOK raw = false := by simp [statusOK, hcode]
      simp [normalizeApiResponseJS, normalizeApiResponse, htr, hgp, hcode, hSO]
    · cases hmsg : (truthy (getField raw "msg") || truthy (getField raw "message"))
      · have hSO : statusOK raw = false := by simp [statusOK, hmsg]
        simp [normalizeApiResponseJS, normalizeApiResponse, htr, hgp, hcode, hmsg, hSO]
      · have hSO : statusOK raw = true := by simp [statusOK, htr, hcode, hmsg]
        cases hng : (strictEqPrim (getField raw "success") (.bool true) &&
            truthy (getField raw "data") && typeofIsObject (getField raw "data"))
        · have hNS : isNewShape raw = false := by simp [isNewShape, hng]
          cases hleg : (truthy (getField raw "data") && typeofIsObject (getField raw "data") &&
              !(hasField (getField raw "data") "day") &&
              !(hasField (getField raw "data") "tomorrow"))
          · have hLS : isLegacyShape raw = false := hleg
            simp [normalizeApiResponseJS, normalizeApiResponse, htr, hgp, hcode, hmsg,
              hSO, hng, hleg, hNS, hLS, jsOrElse]
          · have hLS : isLegacyShape raw = true := hleg
            simp [normalizeApiResponseJS, normalizeApiResponse, htr, hgp, hcode, hmsg,
              hSO, hng, hleg, hNS, hLS, jsOrElse]
        · have hdata : truthy (getField raw "data") = true := by
            have h := hng
            simp only [Bool.and_eq_true] at h
            exact h.1.2
          have hgp2 := getProp_of_truthy hdata
          cases hdt : (truthy (getField (getField raw "data") "day") ||
              truthy (getField (getField raw "data") "tomorrow"))
          · have hNS : isNewShape raw = false := by simp [isNewShape, hng, hdt]
            cases hleg : (truthy (getField raw "data") && typeofIsObject (getField raw "data") &&
                !(hasField (getField raw "data") "day") &&
                !(hasField (getField raw "data") "tomorrow"))
            · have hLS : isLegacyShape raw = false := hleg
              simp [normalizeApiResponseJS, normalizeApiResponse, htr, hgp, hgp2, hcode,
                hmsg, hSO, hng, hdt, hleg, hNS, hLS, jsOrElse]
            · have hLS : isLegacyShape raw = true := hleg
              simp [normalizeApiResponseJS, normalizeApiResponse, htr, hgp, hgp2, hcode,
                hmsg, hSO, hng, hdt, hleg, hNS, hLS, jsOrElse]
          · have hNS : isNewShape raw = true := by simp [isNewShape, hng, hdt]
            simp [normalizeApiResponseJS, normalizeApiResponse, htr, hgp, hgp2, hcode,
              hmsg, hSO, hng, hdt, hNS, jsOrElse]

/-! ## Orchestrator lemmas -/

theorem convert_ne_null {conv : Option (String → String)} {v : JSValue}
    (h : isNullish v = false) : convertObjectToTraditional conv v ≠ JSValue.null := by
  cases conv
  · simpa [convertObjectToTraditional] using not_null_of_not_nullish h
  · cases v <;> simp_all [isNullish, convertObjectToTraditional, convertValue]

/-- Every chosen payload adopted by an attempt passed a truthiness check. -/
theorem attemptChoose_ok_truthy {env : AttemptEnv} {todayDate : String} {c : Chosen}
    (h : (attemptChoose env todayDate).2 = .ok c) : truthy c.payload = true := by
  rcases henv : env.todayResp with e | raw
  · simp [attemptChoose, henv] at h
  · cases h1 : ((normalizeApiResponse raw .today).ok &&
        truthy (normalizeApiResponse raw .today).payload)
    · simp [attemptChoose, henv, h1] at h
    · cases h2 : (truthy (normalizeApiResponse raw .today).date &&
          !(strictEqPrim (normalizeApiResponse raw .today).date (.str todayDate)))
      · simp [attemptChoose, henv, h1, h2] at h
        rw [← h]
        exact (Bool.and_eq_true_iff.mp h1).2
      · cases h3 : ((normalizeApiResponse raw .nextday).ok &&
            truthy (normalizeApiResponse raw .nextday).payload)
        · rcases henv2 : env.nextdayResp with e2 | raw2
          · simp [attemptChoose, henv, h1, h2, h3, henv2] at h
          · cases h4 : ((normalizeApiResponse raw2 .nextday).ok &&
                truthy (normalizeApiResponse raw2 .nextday).payload)
            · simp [attemptChoose, henv, h1, h2, h3, henv2, h4] at h
            · simp [attemptChoose, henv, h1, h2, h3, henv2, h4] at h
              rw [← h]
              exact (Bool.and_eq_true_iff.mp h4).2
        · simp [attemptChoose, henv, h1, h2, h3] at h
          rw [← h]
          exact (Bool.and_eq_true_iff.mp h3).2

/-- Every successful attempt yields the success record shape. -/
theorem attemptResult_ok {conv : Option (String → String)} {type ch : String}
    {env : AttemptEnv} {todayDate : String} {r : FetchResult}
    (h : attemptResult conv type ch env todayDate = .ok r) :
    r.success = true ∧ r.data ≠ JSValue.null ∧ r.error = none := by
  rcases hch : (attemptChoose env todayDate).2 with e | c
  · simp [attemptResult, hch] at h
  · simp [attemptResult, hch] at h
    have hp := attemptChoose_ok_truthy hch
    rw [← h]
    exact ⟨rfl, convert_ne_null (truthy_not_nullish hp), rfl⟩

/-- Unfolding: a successful attempt ends the recursion. -/
theorem fetch_ok_case {conv : Option (String → String)} {type ch : String}
    {envs : Nat → AttemptEnv} {todayDate : String} {rc : Nat} {r : FetchResult}
    (h : attemptResult conv type ch (envs rc) todayDate = .ok r) :
    fetchConstellationData conv type ch envs todayDate rc = r := by
  unfold fetchConstellationData
  rw [h]

/-- Unfolding: a failed attempt below the retry ceiling repeats the whole
procedure with the incremented counter. -/
theorem fetch_retry_case {conv : Option (String → String)} {type ch : String}
    {envs : Nat → AttemptEnv} {todayDate : String} {rc : Nat} {e : String}
    (h : attemptResult conv type ch (envs rc) todayDate = .error e)
    (hlt : rc < RETRY_ATTEMPTS) :
    fetchConstellationData conv type ch envs todayDate rc =
      fetchConstellationData conv type ch envs todayDate (rc + 1) := by
  conv_lhs => rw [fetchConstellationData]
  rw [h]
  simp [hlt]

/-- Unfolding: a failed attempt at the retry ceiling returns the failure
record of lines 232-238. -/
theorem fetch_exhausted_case {conv : Option (String → String)} {type ch : String}
    {envs : Nat → AttemptEnv} {todayDate : String} {rc : Nat} {e : String}
    (h : attemptResult conv type ch (envs rc) todayDate = .error e)
    (hge : ¬ rc < RETRY_ATTEMPTS) :
    fetchConstellationData conv type ch envs todayDate rc =
      { constellation := type, chineseName := ch, success := false,
        code := none, msg := none, data := .null, error := some e } := by
  conv_lhs => rw [fetchConstellationData]
  rw [h]
  simp [hge]

/-- Every result of the retry loop is either a success record with data or
the terminal failure record with null data and an error message. -/
theorem fetch_result_shape (conv : Option (String → String)) (type ch : String)
    (envs : Nat → AttemptEnv) (todayDate : String) :
    ∀ fuel rc, RETRY_ATTEMPTS + 1 - rc ≤ fuel →
      ((fetchConstellationData conv type ch envs todayDate rc).success = true ∧
        (fetchConstellationData conv type ch envs todayDate rc).data ≠ JSValue.null ∧
        (fetchConstellationData conv type ch envs todayDate rc).error = none) ∨
      ((fetchConstellationData conv type ch envs todayDate rc).success = false ∧
        (fetchConstellationData conv type ch envs todayDate rc).data = JSValue.null ∧
        (fetchConstellationData conv type ch envs todayDate rc).error ≠ none) := by
  intro fuel
  induction fuel with
  | zero =>
    intro rc hrc
    have hge : ¬ rc < RETRY_ATTEMPTS := by omega
    rcases har : attemptResult conv type ch (envs rc) todayDate with e | r
    · rw [fetch_exhausted_case har hge]
      exact Or.inr ⟨rfl, rfl, by simp⟩
    · rw [fetch_ok_case har]
      exact Or.inl (attemptResult_ok har)
  | succ n ih =>
    intro rc hrc
    rcases har : attemptResult conv type ch (envs rc) todayDate with e | r
    · by_cases hlt : rc < RETRY_ATTEMPTS
      · rw [fetch_retry_case har hlt]
        exact ih (rc + 1) (by omega)
      · rw [fetch_exhausted_case har hlt]
        exact Or.inr ⟨rfl, rfl, by simp⟩
    · rw [fetch_ok_case har]
      exact Or.inl (attemptResult_ok har)

/-- The attempt count is bounded by the remaining retry budget plus one. -/
theorem fetchAttempts_le (conv : Option (String → String)) (type ch : String)
    (envs : Nat → AttemptEnv) (todayDate : String) :
    ∀ fuel rc, RETRY_ATTEMPTS - rc ≤ fuel →
      fetchAttempts conv type ch envs todayDate rc ≤ fuel + 1 := by
  intro fuel
  induction fuel with
  | zero =>
    intro rc hrc
    have hge : ¬ rc < RETRY_ATTEMPTS := by omega
    unfold fetchAttempts
    rcases har : attemptResult conv type ch (envs rc) todayDate with e | r <;> simp [har, hge]
  | succ n ih =>
    intro rc hrc
    unfold fetchAttempts
    rcases har : attemptResult conv type ch (envs rc) todayDate with e | r
    · by_cases hlt : rc < RETRY_ATTEMPTS
      · simp only [har, hlt, dif_pos]
        have := ih (rc + 1) (by omega)
        omega
      · simp [har, hlt]
    · simp [har]

/-- Every attempt begins with the `time=today` request. -/
theorem attemptChoose_starts_today (env : AttemptEnv) (todayDate : String) :
    ((attemptChoose env todayDate).1).head? = some ReqTime.today := by
  rcases henv : env.todayResp with e | raw
  · simp [attemptChoose, henv]
  · cases h1 : ((normalizeApiResponse raw .today).ok &&
        truthy (normalizeApiResponse raw .today).payload)
    · simp [attemptChoose, henv, h1]
    · cases h2 : (truthy (normalizeApiResponse raw .today).date &&
          !(strictEqPrim (normalizeApiResponse raw .today).date (.str todayDate)))
      · simp [attemptChoose, henv, h1, h2]
      · cases h3 : ((normalizeApiResponse raw .nextday).ok &&
            truthy (normalizeApiResponse raw .nextday).payload)
        · rcases henv2 : env.nextdayResp with e2 | raw2
          · simp [attemptChoose, henv, h1, h2, h3, henv2]
          · cases h4 : ((normalizeApiResponse raw2 .nextday).ok &&
                truthy (normalizeApiResponse raw2 .nextday).payload) <;>
              simp [attemptChoose, henv, h1, h2, h3, henv2, h4]
        · simp [attemptChoose, henv, h1, h2, h3]

/-! ## Claims about the orchestrator and batch driver -/

/-- C1, evaluated at the failing input: a legacy-shape today response dated
2025-07-24 with no `tomorrow` block, against reference date 2025-07-25
(a date mismatch).  The in-response `nextday` re-normalization returns the
same stale data object as a usable payload, so the orchestrator issues no
second `time=nextday` request and the sign succeeds with the stale
payload — the claim (spec Scenario C, and the source's own comment at
line 160 and log message at line 172) requires a second `time=nextday`
call here and, when it fails, a `success:false` result. -/
theorem C1_no_second_call_on_legacy :
    (normalizeApiResponse rawScenarioA .today).date = .str "2025-07-24" ∧
    hasField (getField rawScenarioA "data") "tomorrow" = false ∧
    (normalizeApiResponse rawScenarioA .nextday).ok = true ∧
    truthy (normalizeApiResponse rawScenarioA .nextday).payload = true ∧
    (attemptChoose envStale "2025-07-25").1 = [ReqTime.today] ∧
    (attemptChoose envStale "2025-07-25").2 =
      .ok ⟨"200", .str "ok", .obj dataScenarioA⟩ ∧
    (fetchConstellationData none "aries" "白羊座" (fun _ => envStale) "2025-07-25" 0).success
      = true := by
  refine ⟨rfl, rfl, rfl, rfl, rfl, rfl, ?_⟩
  have h : attemptResult none "aries" "白羊座" envStale "2025-07-25" =
      .ok ⟨"aries", "白羊座", true, some "200", some (.str "ok"), .obj dataScenarioA, none⟩ :=
    rfl
  simp [fetchConstellationData, h]

/-- C6: `NormalizedResponse.ok = true` implies a non-null payload, and
every `FetchResult` the orchestrator returns has non-null data and no
error exactly on success, and null data with an error message exactly on
failure. -/
theorem C6_invariants (raw : JSValue) (prefer : Prefer) (conv : Option (String → String))
    (type ch : String) (envs : Nat → AttemptEnv) (todayDate : String) (rc : Nat) :
    ((normalizeApiResponse raw prefer).ok = true →
      (normalizeApiResponse raw prefer).payload ≠ JSValue.null) ∧
    ((fetchConstellationData conv type ch envs todayDate rc).success = true →
      (fetchConstellationData conv type ch envs todayDate rc).data ≠ JSValue.null ∧
      (fetchConstellationData conv type ch envs todayDate rc).error = none) ∧
    ((fetchConstellationData conv type ch envs todayDate rc).success = false →
      (fetchConstellationData conv type ch envs todayDate rc).data = JSValue.null ∧
      (fetchConstellationData conv type ch envs todayDate rc).error ≠ none) := by
  have hshape := fetch_result_shape conv type ch envs todayDate
    (RETRY_ATTEMPTS + 1 - rc) rc le_rfl
  refine ⟨fun h => not_null_of_not_nullish (normalize_ok_payload_not_nullish raw prefer h),
    ?_, ?_⟩
  · intro h
    rcases hshape with ⟨-, h2, h3⟩ | ⟨h1, -, -⟩
    · exact ⟨h2, h3⟩
    · simp [h1] at h
  · intro h
    rcases hshape with ⟨h1, -, -⟩ | ⟨-, h2, h3⟩
    · simp [h1] at h
    · exact ⟨h2, h3⟩

/-- C6 witness: the accepted Scenario A response has a non-null payload,
and a concrete all-failing run returns null data with an error present. -/
theorem C6_witness :
    (normalizeApiResponse rawScenarioA Prefer.today).ok = true ∧
    (normalizeApiResponse rawScenarioA Prefer.today).payload ≠ JSValue.null :=
  ⟨rfl, (C6_invariants rawScenarioA Prefer.today none "aries" "白羊座"
    (fun _ => envDown) "2025-07-25" 0).1 rfl⟩

/-- C7: the attempt count is bounded by one plus the fixed retry count,
every attempt starts over from the `time=today` fetch, a failure below the
ceiling repeats the procedure with the incremented counter, and when every
attempt fails the orchestrator returns (rather than throws) the failure
record carrying the last error message and null data. -/
theorem C7_retry_behaviour (conv : Option (String → String)) (type ch : String)
    (envs : Nat → AttemptEnv) (todayDate : String) :
    fetchAttempts conv type ch envs todayDate 0 ≤ RETRY_ATTEMPTS + 1 ∧
    (∀ env, ((attemptChoose env todayDate).1).head? = some ReqTime.today) ∧
    (∀ rc e, rc < RETRY_ATTEMPTS →
      attemptResult conv type ch (envs rc) todayDate = .error e →
      fetchConstellationData conv type ch envs todayDate rc =
        fetchConstellationData conv type ch envs todayDate (rc + 1)) ∧
    (∀ msgs : Nat → String,
      (∀ i, i ≤ RETRY_ATTEMPTS →
        attemptResult conv type ch (envs i) todayDate = .error (msgs i)) →
      fetchConstellationData conv type ch envs todayDate 0 =
        { constellation := type, chineseName := ch, success := false,
          code := none, msg := none, data := .null,
          error := some (msgs RETRY_ATTEMPTS) }) := by
  refine ⟨?_, fun env => attemptChoose_starts_today env todayDate,
    fun rc e hlt he => fetch_retry_case he hlt, ?_⟩
  · have h := fetchAttempts_le conv type ch envs todayDate RETRY_ATTEMPTS 0 (by omega)
    omega
  · intro msgs hmsgs
    have h0 := fetch_retry_case (hmsgs 0 (by decide)) (by decide)
    have h1 := fetch_retry_case (hmsgs 1 (by decide)) (by decide)
    have h2 := fetch_retry_case (hmsgs 2 (by decide)) (by decide)
    have h3 := fetch_exhausted_case (hmsgs 3 (by decide)) (by decide)
    rw [h0, h1, h2, h3]
    rfl

/-- C7 witness: with every transport call failing, the run returns the
failure record with the transport message after four attempts. -/
theorem C7_witness :
    fetchConstellationData none "aries" "白羊座" (fun _ => envDown) "2025-07-25" 0 =
      { constellation := "aries", chineseName := "白羊座", success := false,
        code := none, msg := none, data := .null,
        error := some "timeout of 10000ms exceeded" } ∧
    fetchAttempts none "aries" "白羊座" (fun _ => envDown) "2025-07-25" 0 ≤
      RETRY_ATTEMPTS + 1 := by
  have h := C7_retry_behaviour none "aries" "白羊座" (fun _ => envDown) "2025-07-25"
  exact ⟨h.2.2.2 (fun _ => "timeout of 10000ms exceeded") (fun i _ => rfl), h.1⟩

/-- C8: with the transliteration service unavailable (converter `null`),
deep conversion is the identity, the output flag records that no
transliteration was applied, and every successful attempt returns the
chosen message and payload entirely unchanged. -/
theorem C8_no_converter_passthrough :
    (∀ v, convertObjectToTraditional none v = v) ∧
    (∀ fetch, (runBatch none fetch).convertedToTraditional = false) ∧
    (∀ type ch env todayDate c, (attemptChoose env todayDate).2 = .ok c →
      attemptResult none type ch env todayDate =
        .ok { constellation := type, chineseName := ch, success := true,
              code := some c.code, msg := some c.msg, data := c.payload,
              error := none }) := by
  refine ⟨fun v => rfl, fun fetch => rfl, ?_⟩
  intro type ch env todayDate c h
  simp [attemptResult, h, convertObjectToTraditional]

/-- C8 witness: a concrete matching-date success with no converter returns
the payload and message verbatim. -/
theorem C8_witness :
    attemptResult none "aries" "白羊座" envFresh "2025-07-24" =
      .ok { constellation := "aries", chineseName := "白羊座", success := true,
            code := some "200", msg := some (.str "ok"), data := .obj dataScenarioA,
            error := none } :=
  (C8_no_converter_passthrough).2.2 "aries" "白羊座" envFresh "2025-07-24"
    ⟨"200", .str "ok", .obj dataScenarioA⟩ rfl

/-- C9: over the twelve signs, `successCount` counts the successful
results, `failureCount` is twelve minus `successCount`, and the process
exits 0 exactly when at least one sign succeeded; in particular 10
successes give counts 10/2 and exit code 0. -/
theorem C9_batch_counts (conv : Option (String → String)) (fetch : String → FetchResult) :
    (runBatch conv fetch).successCount =
      ((CONSTELLATIONS.map (fun p => fetch p.1)).filter (fun r => r.success)).length ∧
    (runBatch conv fetch).failureCount =
      CONSTELLATIONS.length - (runBatch conv fetch).successCount ∧
    CONSTELLATIONS.length = 12 ∧
    ((runBatch conv fetch).exitCode = 0 ↔ 0 < (runBatch conv fetch).successCount) ∧
    ((runBatch conv fetch).successCount = 10 →
      (runBatch conv fetch).failureCount = 2 ∧ (runBatch conv fetch).exitCode = 0) := by
  have hex : (runBatch conv fetch).exitCode =
      if (runBatch conv fetch).successCount > 0 then 0 else 1 := rfl
  have hf : (runBatch conv fetch).failureCount =
      CONSTELLATIONS.length - (runBatch conv fetch).successCount := rfl
  refine ⟨rfl, rfl, rfl, ?_, ?_⟩
  · rw [hex]
    split <;> simp [*]
  · intro h10
    refine ⟨?_, ?_⟩
    · rw [hf, h10]
      rfl
    · rw [hex, h10]
      simp

/-- C9 witness: the concrete run with exactly two failing signs. -/
theorem C9_witness :
    (runBatch none fetchTwoFail).successCount = 10 ∧
    (runBatch none fetchTwoFail).failureCount = 2 ∧
    (runBatch none fetchTwoFail).exitCode = 0 := by
  have h := C9_batch_counts none fetchTwoFail
  have h10 : (runBatch none fetchTwoFail).successCount = 10 := rfl
  exact ⟨h10, (h.2.2.2.2 h10).1, (h.2.2.2.2 h10).2⟩

/-- C10 counterexample: a new-shape response whose `tomorrow` block is the
falsy (but non-null) value `0`.  Both preferences normalize to `ok` with a
non-null payload, yet the orchestrator's usability test is truthiness, so
the in-response `nextday` payload is unusable and the second network call
with `time=nextday` IS issued — the branch the claim calls unreachable. -/
theorem C10_counterexample :
    (normalizeApiResponse rawFalsyTomorrow .today).ok = true ∧
    truthy (normalizeApiResponse rawFalsyTomorrow .today).payload = true ∧
    (normalizeApiResponse rawFalsyTomorrow .today).date = .str "2025-07-24" ∧
    (normalizeApiResponse rawFalsyTomorrow .nextday).ok = true ∧
    (normalizeApiResponse rawFalsyTomorrow .nextday).payload = .num 0 ∧
    truthy (normalizeApiResponse rawFalsyTomorrow .nextday).payload = false ∧
    (attemptChoose envFalsyTomorrow "2025-07-25").1 = [ReqTime.today, ReqTime.nextday] :=
  ⟨rfl, rfl, rfl, rfl, rfl, rfl, rfl⟩

/-- C10 (amended): the preference never affects acceptance, and whenever
`today` accepts, both payloads are non-null; but because the orchestrator
tests payload truthiness rather than non-nullness, in the date-mismatch
branch the second network call is issued exactly when the re-normalized
`nextday` result is not ok-with-truthy-payload — a reachable situation. -/
theorem C10_preference_independence (raw : JSValue) :
    ((normalizeApiResponse raw .today).ok = (normalizeApiResponse raw .nextday).ok) ∧
    ((normalizeApiResponse raw .today).ok = true →
      (normalizeApiResponse raw .today).payload ≠ JSValue.null ∧
      (normalizeApiResponse raw .nextday).payload ≠ JSValue.null) ∧
    (∀ env todayDate, env.todayResp = .ok raw →
      ((normalizeApiResponse raw .today).ok &&
        truthy (normalizeApiResponse raw .today).payload) = true →
      (truthy (normalizeApiResponse raw .today).date &&
        !(strictEqPrim (normalizeApiResponse raw .today).date (.str todayDate))) = true →
      ((attemptChoose env todayDate).1 = [ReqTime.today, ReqTime.nextday] ↔
        ((normalizeApiResponse raw .nextday).ok &&
          truthy (normalizeApiResponse raw .nextday).payload) = false)) := by
  refine ⟨normalize_ok_pref_independent raw, ?_, ?_⟩
  · intro h
    have h2 : (normalizeApiResponse raw .nextday).ok = true := by
      rw [← normalize_ok_pref_independent raw]
      exact h
    exact ⟨not_null_of_not_nullish (normalize_ok_payload_not_nullish raw .today h),
      not_null_of_not_nullish (normalize_ok_payload_not_nullish raw .nextday h2)⟩
  · intro env todayDate henv h1 hdm
    cases h3 : ((normalizeApiResponse raw .nextday).ok &&
        truthy (normalizeApiResponse raw .nextday).payload)
    · rcases henv2 : env.nextdayResp with e2 | raw2
      · simp [attemptChoose, henv, h1, hdm, h3, henv2]
      · cases h4 : ((normalizeApiResponse raw2 .nextday).ok &&
            truthy (normalizeApiResponse raw2 .nextday).payload) <;>
          simp [attemptChoose, henv, h1, hdm, h3, henv2, h4]
    · simp [attemptChoose, henv, h1, hdm, h3]

/-- C10 witness for the amended claim, at the counterexample input. -/
theorem C10_witness :
    (attemptChoose envFalsyTomorrow "2025-07-25").1 = [ReqTime.today, ReqTime.nextday] :=
  ((C10_preference_independence rawFalsyTomorrow).2.2 envFalsyTomorrow "2025-07-25"
    rfl rfl rfl).mpr rfl

end Horoscope
